import Mathlib

/-!
Verification of the twitch2tg-bot core: a shallow embedding of the
session-lifecycle state machine (monitor.go, monitorLoop), the
retry/backoff executor (monitor.go, retryWithBackoff), the viewer-metrics
aggregation (calculateAverage, getMaxViewers, viewerTrend) and the message
composers (format.go), together with theorems settling the claims of the
specification against these definitions.

Modelling conventions:
- Go machine integers are modelled as Int (Go division, which truncates
  toward zero, is Int.tdiv); list indices and fuel are Nat.
- Timestamps are an abstract Nat clock (seconds).
- float64 arithmetic in viewerTrend is modelled by exact rationals, and
  the fixed-point rendering of fmt.Sprintf by exact decimal rounding with
  ties to even (the rounding strconv.FormatFloat applies); theorems about
  these functions exclude the inputs where binary floating point could
  diverge from exact arithmetic (a zero early-half mean).
- Each poll cycle of monitorLoop is a pure function of the previous state
  and a per-cycle environment recording what the collaborators (Twitch,
  Telegram, the filesystem sentinel, the clock) answered in that cycle.
-/

namespace TwitchBot

/-! ## Data model (types from the Go sources) -/

/-- StreamInfo (setup.go): the per-poll snapshot of a live stream.
Absence of a StreamInfo value means the channel is offline. -/
structure StreamInfo where
  Channel : String
  URL : String
  Title : String
  Game : String
  Viewers : Int
  Uptime : String
  Tags : List String
deriving Repr, DecidableEq

/-- ClipInfo (setup.go): one recent clip. -/
structure ClipInfo where
  URL : String
  Title : String
deriving Repr, DecidableEq

/-- ViewerDataPoint: one timestamped viewer-count sample. -/
structure ViewerDataPoint where
  Timestamp : Nat
  Count : Int
deriving Repr, DecidableEq

/-- StreamSession: the live-tracking record owned by monitorLoop. -/
structure StreamSession where
  MessageID : Int
  StartTime : Nat
  Game : String
  Title : String
  Tags : List String
  BroadcasterID : String
  ViewerHistory : List ViewerDataPoint
  UpdateCounter : Int
deriving Repr, DecidableEq

/-- Localization: the string table selected by the language setting. -/
structure Localization where
  StartedStreaming : String
  IsLive : String
  StreamEnded : String
  ButtonText : String
  Peak : String
  Viewers : String
  Avg : String
  Clips : String
  Growing : String
  Steady : String
  Dropping : String
deriving Repr, DecidableEq

/-- Config: the fields of the configuration that the monitor core reads
(the Twitch channel, intervals and language; credential and Telegram
routing fields are opaque to the state machine and omitted). -/
structure Config where
  Channel : String
  CheckInterval : Int
  UpdateInterval : Int
  Language : String
deriving Repr, DecidableEq

/-- getLocalization (main source file): language selector to string table. -/
def getLocalization (lang : String) : Localization :=
  if lang = "en" then
    { StartedStreaming := "LIVE", IsLive := "LIVE", StreamEnded := "OFFLINE"
      ButtonText := "Watch", Peak := "peak", Viewers := "viewers"
      Avg := "avg", Clips := "clips", Growing := "growing"
      Steady := "steady", Dropping := "dropping" }
  else if lang = "ru" then
    { StartedStreaming := "LIVE", IsLive := "LIVE", StreamEnded := "OFFLINE"
      ButtonText := "Смотреть", Peak := "пик", Viewers := "зрителей"
      Avg := "среднее", Clips := "клипов", Growing := "растёт"
      Steady := "стабильно", Dropping := "падает" }
  else
    { StartedStreaming := "LIVE", IsLive := "LIVE", StreamEnded := "OFFLINE"
      ButtonText := "Watch", Peak := "peak", Viewers := "viewers"
      Avg := "avg", Clips := "clips", Growing := "growing"
      Steady := "steady", Dropping := "dropping" }

/-! ## Retry/backoff executor (monitor.go, retryWithBackoff)

The Go function takes a context and a fallible operation.  The embedding
takes the operation as a function from the invocation index (0-based) to
its result for that invocation (none = success, some msg = the error it
reported), and the cancellation signal as a function from the wait index
(0-based) to whether the signal fires during that wait.  Because the Go
loop may run forever, the embedding is fuel-indexed: none means the loop
was still running after consuming the fuel.  A terminated run reports the
returned error value (none for the nil error), the number of invocations
of the operation performed, and the total seconds of completed waits. -/

/-- The two error values retryWithBackoff could in principle propagate:
the cancellation error of the context, or an error reported by the operation
itself (the Go code discards the latter; opErr exists so that the theorem
that it is never returned is a statement, not a tautology of the type). -/
inductive RetryErr where
  | ctxCanceled
  | opErr (msg : String)
deriving Repr, DecidableEq

/-- The finite backoff schedule of retryWithBackoff, in seconds. -/
def retryDelays : List Nat := [1, 3, 5, 10, 15, 30, 45, 60]

/-- Wait duration before retry number i+1: the schedule entry while it
lasts, then the steady-state 60 seconds of the unbounded phase. -/
def delayFor (i : Nat) : Nat := retryDelays.getD i 60

/-- One uniform recursion covering both loops of retryWithBackoff:
invoke the operation; on success return nil; otherwise wait, abandoning
the wait with the context error if cancellation fires during it. -/
def retryRun (op : Nat → Option String) (cancel : Nat → Bool) :
    Nat → Nat → Nat → Option (Option RetryErr × Nat × Nat)
  | 0, _, _ => none
  | fuel + 1, i, w =>
    match op i with
    | none => some (none, i + 1, w)
    | some _ =>
      if cancel i then some (some RetryErr.ctxCanceled, i + 1, w)
      else retryRun op cancel fuel (i + 1) (w + delayFor i)

/-- retryWithBackoff (monitor.go): run from the first invocation with no
wait time accumulated. -/
def retryWithBackoff (op : Nat → Option String) (cancel : Nat → Bool)
    (fuel : Nat) : Option (Option RetryErr × Nat × Nat) :=
  retryRun op cancel fuel 0 0

/-! ## Viewer metrics (calculateAverage, getMaxViewers, viewerTrend) -/

/-- calculateAverage: integer mean of the recorded counts, 0 when empty
(Go integer division truncates toward zero). -/
def calculateAverage (history : List ViewerDataPoint) : Int :=
  if history.length = 0 then 0
  else Int.tdiv (history.map (fun p => p.Count)).sum (history.length : Int)

/-- getMaxViewers: maximum recorded count, 0 when empty.  The Go loop
starts from the first count and folds max over the whole list. -/
def getMaxViewers (history : List ViewerDataPoint) : Int :=
  match history with
  | [] => 0
  | p :: rest => ((p :: rest).map (fun q => q.Count)).foldl max p.Count

/-- viewerTrend (format.go): classify momentum from the first-half and
second-half means.  float64 sums and quotients are modelled exactly in ℚ. -/
def viewerTrend (history : List ViewerDataPoint) (loc : Localization) : String :=
  if history.length < 4 then ""
  else
    let mid := history.length / 2
    let early : ℚ := ((history.take mid).map (fun p => (p.Count : ℚ))).sum / (mid : ℚ)
    let late : ℚ :=
      ((history.drop mid).map (fun p => (p.Count : ℚ))).sum / ((history.length - mid : ℕ) : ℚ)
    let diff := (late - early) / early
    if 7 / 100 < diff then loc.Growing
    else if diff < -(7 / 100) then loc.Dropping
    else loc.Steady

/-! ## Message composition (format.go) -/

/-- escapeHTML: replace the three reserved markup characters, in order. -/
def escapeHTML (text : String) : String :=
  ((text.replace "&" "&amp;").replace "<" "&lt;").replace ">" "&gt;"

/-- formatTags: space-joined hashtags, skipping empty tags. -/
def formatTags (tags : List String) : String :=
  String.intercalate " " ((tags.filter (fun t => t ≠ "")).map (fun t => "#" ++ t))

/-- formatClips: middle-dot-joined anchor links with escaped titles. -/
def formatClips (clips : List ClipInfo) : String :=
  if clips.length = 0 then ""
  else
    String.intercalate " · "
      (clips.map (fun c => "<a href=\"" ++ c.URL ++ "\">" ++ escapeHTML c.Title ++ "</a>"))

/-- Rounds num / den to the nearest integer, ties to even: the rounding
strconv.FormatFloat applies when fmt renders a float with %.0f. -/
def roundHalfEven (num den : Nat) : Nat :=
  let q := num / den
  let r := num % den
  if 2 * r < den then q
  else if den < 2 * r then q + 1
  else if q % 2 = 0 then q else q + 1

/-- Rendering of fmt.Sprintf %.0f on the exact quotient num / den. -/
def fmtWhole (num den : Nat) : String :=
  toString (roundHalfEven num den)

/-- Rendering of fmt.Sprintf %.1f on the exact quotient num / den. -/
def fmtOneDecimal (num den : Nat) : String :=
  let t := roundHalfEven (10 * num) den
  toString (t / 10) ++ "." ++ toString (t % 10)

/-- formatViewers (format.go): abbreviate a viewer count for display.
The Go comparison of float64(n) / 1e6 against 10 is n against 10 million. -/
def formatViewers (n : Int) : String :=
  if 1000000 ≤ n then
    if 10000000 ≤ n then fmtWhole n.toNat 1000000 ++ "M"
    else fmtOneDecimal n.toNat 1000000 ++ "M"
  else if 10000 ≤ n then fmtWhole n.toNat 1000 ++ "K"
  else if 1000 ≤ n then fmtOneDecimal n.toNat 1000 ++ "K"
  else toString n

/-- formatDuration (setup.go) on a duration of d whole seconds: the Go
int conversions of d.Hours() and d.Minutes() truncate toward zero. -/
def formatDuration (d : Nat) (lang : String) : String :=
  let hours := d / 3600
  let minutes := (d / 60) % 60
  if lang = "ru" then
    if 0 < hours then toString hours ++ " ч " ++ toString minutes ++ " мин"
    else toString minutes ++ " мин"
  else
    if 0 < hours then toString hours ++ " h " ++ toString minutes ++ " m"
    else toString minutes ++ " m"

/-- formatStartMessage (format.go). -/
def formatStartMessage (info : StreamInfo) (loc : Localization) : String :=
  let line := "<b>" ++ escapeHTML info.Channel ++ "</b> • " ++ loc.StartedStreaming
  let line := if info.Game ≠ "" then line ++ " • " ++ escapeHTML info.Game else line
  let b := line ++ "\n\n"
  let b := if info.Title ≠ "" then b ++ "<i>" ++ escapeHTML info.Title ++ "</i>" else b
  let tags := formatTags info.Tags
  if tags ≠ "" then b ++ "\n\n" ++ tags else b

/-- The viewer fragment of the stats line of formatUpdateMessage: current
count, the average when positive and different from the current count,
and the trend tag when one is classified. -/
def viewerStat (info : StreamInfo) (avgViewers : Int) (history : List ViewerDataPoint)
    (loc : Localization) : String :=
  let v := formatViewers info.Viewers ++ " " ++ loc.Viewers
  let v :=
    if 0 < avgViewers ∧ avgViewers ≠ info.Viewers then
      v ++ ", " ++ formatViewers avgViewers ++ " " ++ loc.Avg
    else v
  let trend := viewerTrend history loc
  if trend ≠ "" then v ++ " · " ++ trend else v

/-- formatUpdateMessage (format.go): header, optional title, and the
stats line; the viewer fragment appears only when the current count is
positive. -/
def formatUpdateMessage (info : StreamInfo) (avgViewers : Int)
    (history : List ViewerDataPoint) (loc : Localization) : String :=
  let line := "<b>" ++ escapeHTML info.Channel ++ "</b> • " ++ loc.IsLive
  let line := if info.Game ≠ "" then line ++ " • " ++ escapeHTML info.Game else line
  let b := line ++ "\n\n"
  let b := if info.Title ≠ "" then b ++ "<i>" ++ escapeHTML info.Title ++ "</i>\n\n" else b
  let stats : List String := if info.Uptime ≠ "" then [info.Uptime] else []
  let stats :=
    if 0 < info.Viewers then stats ++ [viewerStat info avgViewers history loc] else stats
  b ++ String.intercalate " · " stats

/-- formatUpdateMessageWithClips (format.go). -/
def formatUpdateMessageWithClips (info : StreamInfo) (avgViewers : Int)
    (history : List ViewerDataPoint) (clips : List ClipInfo) (loc : Localization) : String :=
  let msg := formatUpdateMessage info avgViewers history loc
  let msg := if formatClips clips ≠ "" then msg ++ "\n\n" ++ formatClips clips else msg
  if formatTags info.Tags ≠ "" then msg ++ "\n\n" ++ formatTags info.Tags else msg

/-- formatEndMessage (format.go). -/
def formatEndMessage (channel duration : String) (avgViewers maxViewers : Int)
    (game title : String) (tags : List String) (clips : List ClipInfo)
    (loc : Localization) : String :=
  let line := "<b>" ++ escapeHTML channel ++ "</b> • " ++ loc.StreamEnded
  let line := if game ≠ "" then line ++ " • " ++ escapeHTML game else line
  let b := line ++ "\n\n"
  let b := if title ≠ "" then b ++ "<i>" ++ escapeHTML title ++ "</i>\n\n" else b
  let stats : List String := if duration ≠ "" then [duration] else []
  let stats :=
    if 0 < avgViewers then
      stats ++
        [formatViewers avgViewers ++ " " ++ loc.Avg ++
          (if avgViewers < maxViewers then
            ", " ++ formatViewers maxViewers ++ " " ++ loc.Peak
          else "")]
    else stats
  let stats :=
    if 0 < clips.length then stats ++ [toString clips.length ++ " " ++ loc.Clips]
    else stats
  let b := b ++ String.intercalate " · " stats
  let b := if formatClips clips ≠ "" then b ++ "\n\n" ++ formatClips clips else b
  if formatTags tags ≠ "" then b ++ "\n\n" ++ formatTags tags else b

/-! ## The poll loop (monitor.go, monitorLoop)

One iteration of the loop body is embedded as a pure function of the
previous state and a per-cycle environment.  The environment records the
answers of every collaborator consulted during that cycle: the clock, the
presence of the sentinel file, the outcome of getStreamInfo, the outcome
of getBroadcasterID, the terminal outcome of each retryWithBackoff run
around a Telegram delivery, and the clip list (getRecentClips failures are
tolerated by the code and appear as an empty list). -/

/-- Outcome of getStreamInfo for one cycle: a transport error, a
nil-nil answer (channel offline), or a snapshot. -/
inductive SnapResult where
  | fail
  | ok (info : Option StreamInfo)
deriving Repr, DecidableEq

/-- Terminal outcome of a retryWithBackoff run around a delivery: some
invocation succeeded (for sendPhotoMessage, carrying the message id the
successful invocation stored), or the context was cancelled during a
wait, leaving the id variable at its last written value, 0. -/
inductive DeliveryResult where
  | success (id : Int)
  | cancelled
deriving Repr, DecidableEq

/-- Everything the environment answers during one poll cycle. -/
structure CycleEnv where
  now : Nat
  sentinel : Bool
  snap : SnapResult
  broadcaster : Option String
  startSend : DeliveryResult
  updateEdit : DeliveryResult
  endEdit : DeliveryResult
  clips : List ClipInfo
deriving Repr, DecidableEq

/-- The loop-carried state of monitorLoop. -/
structure MonitorState where
  session : Option StreamSession
  lastWasLive : Bool
deriving Repr, DecidableEq

/-- Observable side effects of one poll cycle (what was deleted, logged
as a failed status check, and composed and handed to a delivery retry). -/
structure CycleEffects where
  sentinelDeleted : Bool := false
  statusCheckFailed : Bool := false
  startMessage : Option String := none
  refreshed : Bool := false
  updateMessage : Option String := none
  endMessage : Option String := none
deriving Repr, DecidableEq

/-- checksPerUpdate (monitorLoop): polls between periodic refreshes,
by Go integer division. -/
def checksPerUpdate (cfg : Config) : Int :=
  Int.tdiv (cfg.UpdateInterval * 60) cfg.CheckInterval

/-- One iteration of the body of monitorLoop (below the top-of-loop
context check), as a function from state and environment to the new
state and the effects of the cycle.

Field-by-field correspondence with the Go:
- the sentinel branch deletes the file and, when a session exists, sets
  info to nil and err to a non-nil simulated-end error; otherwise
  getStreamInfo is consulted;
- a non-nil err logs a failed status check and ends the cycle with no
  further action (continue);
- lastWasLive is assigned isLive (the Go guard only skips the assignment
  when the value is unchanged);
- the Offline to Live branch resolves the broadcaster id (ending the
  cycle on failure), composes the start message, runs the send through
  retryWithBackoff, and creates the session only when the resulting
  message id is non-zero (Go zero value on cancellation);
- the Live branch appends the data point and increments the counter
  first, then refreshes when the counter has reached checksPerUpdate or
  the game changed away from a non-empty cached game, resetting the
  counter and caches regardless of the outcome of the edit, which is
  discarded;
- the Live to Offline branch composes the end message from duration,
  average, peak and clips, runs the caption edit through
  retryWithBackoff, and discards the session unconditionally. -/
def pollCycle (cfg : Config) (st : MonitorState) (env : CycleEnv) :
    MonitorState × CycleEffects :=
  let loc := getLocalization cfg.Language
  let acquired : Option StreamInfo × Bool :=
    if env.sentinel then
      if st.session.isSome then (none, true) else (none, false)
    else
      match env.snap with
      | SnapResult.fail => (none, true)
      | SnapResult.ok i => (i, false)
  if acquired.2 then
    (st, { sentinelDeleted := env.sentinel, statusCheckFailed := true })
  else
    let isLive := acquired.1.isSome
    let st' : MonitorState := { st with lastWasLive := isLive }
    match acquired.1, st'.session with
    | some info, none =>
      match env.broadcaster with
      | none => (st', { sentinelDeleted := env.sentinel })
      | some broadcasterID =>
        let message := formatStartMessage info loc
        let dataPoint : ViewerDataPoint := { Timestamp := env.now, Count := info.Viewers }
        let messageID : Int :=
          match env.startSend with
          | DeliveryResult.success id => id
          | DeliveryResult.cancelled => 0
        if messageID ≠ 0 then
          let newSession : StreamSession :=
            { MessageID := messageID
              StartTime := env.now
              Game := info.Game
              Title := info.Title
              Tags := info.Tags
              BroadcasterID := broadcasterID
              ViewerHistory := [dataPoint]
              UpdateCounter := 0 }
          ({ st' with session := some newSession },
            { sentinelDeleted := env.sentinel, startMessage := some message })
        else
          (st', { sentinelDeleted := env.sentinel, startMessage := some message })
    | some info, some s =>
      let point : ViewerDataPoint := { Timestamp := env.now, Count := info.Viewers }
      let s := { s with ViewerHistory := s.ViewerHistory ++ [point] }
      let s := { s with UpdateCounter := s.UpdateCounter + 1 }
      let gameChanged := info.Game != s.Game && s.Game != ""
      if checksPerUpdate cfg ≤ s.UpdateCounter ∨ gameChanged = true then
        let avgViewers := calculateAverage s.ViewerHistory
        let message := formatUpdateMessageWithClips info avgViewers s.ViewerHistory env.clips loc
        let s' : StreamSession :=
          { s with UpdateCounter := 0, Game := info.Game, Title := info.Title, Tags := info.Tags }
        ({ st' with session := some s' },
          { sentinelDeleted := env.sentinel, refreshed := true,
            updateMessage := some message })
      else
        ({ st' with session := some s }, { sentinelDeleted := env.sentinel })
    | none, some s =>
      let durationStr := formatDuration (env.now - s.StartTime) cfg.Language
      let avgViewers := calculateAverage s.ViewerHistory
      let maxViewers := getMaxViewers s.ViewerHistory
      let message :=
        formatEndMessage cfg.Channel durationStr avgViewers maxViewers
          s.Game s.Title s.Tags env.clips loc
      ({ st' with session := none },
        { sentinelDeleted := env.sentinel, endMessage := some message })
    | none, none => (st', { sentinelDeleted := env.sentinel })

/-- The states the loop can reach from its initial state (no session,
lastWasLive false) under any sequence of environments. -/
inductive Reachable (cfg : Config) : MonitorState → Prop where
  | init : Reachable cfg { session := none, lastWasLive := false }
  | step (st : MonitorState) (env : CycleEnv) :
      Reachable cfg st → Reachable cfg (pollCycle cfg st env).1

/-! ## Lemmas about the retry executor -/

/-- retryWithBackoff never terminates with an error reported by the
operation: the Go code discards operation errors and only ever returns
nil or the context error. -/
theorem retryRun_no_opErr (op : Nat → Option String) (cancel : Nat → Bool) :
    ∀ (fuel i w n w' : Nat) (e : String),
      retryRun op cancel fuel i w ≠ some (some (RetryErr.opErr e), n, w') := by
  intro fuel
  induction fuel with
  | zero => intro i w n w' e h; simp [retryRun] at h
  | succ m ih =>
    intro i w n w' e h
    unfold retryRun at h
    cases hop : op i with
    | none => rw [hop] at h; simp at h
    | some msg =>
      rw [hop] at h
      by_cases hc : cancel i
      · simp [hc] at h
      · simp only [hc, if_false, Bool.false_eq_true] at h
        exact ih _ _ _ _ _ h

/-- Shape of a run that ends in cancellation: at least one invocation
happened, the signal fired during the wait right after the last
invocation, and every invocation performed had failed. -/
theorem retryRun_cancel_spec (op : Nat → Option String) (cancel : Nat → Bool) :
    ∀ (fuel i w n w' : Nat),
      retryRun op cancel fuel i w = some (some RetryErr.ctxCanceled, n, w') →
      i < n ∧ cancel (n - 1) = true ∧ ∀ j, i ≤ j → j < n → op j ≠ none := by
  intro fuel
  induction fuel with
  | zero => intro i w n w' h; simp [retryRun] at h
  | succ m ih =>
    intro i w n w' h
    unfold retryRun at h
    cases hop : op i with
    | none => rw [hop] at h; simp at h
    | some msg =>
      rw [hop] at h
      by_cases hc : cancel i
      · simp only [hc, if_true, Option.some.injEq, Prod.mk.injEq] at h
        obtain ⟨-, hn, -⟩ := h
        subst hn
        refine ⟨Nat.lt_succ_self i, by simpa using hc, ?_⟩
        intro j hij hjn
        have hji : j = i := by omega
        subst hji; simp [hop]
      · simp only [hc, if_false, Bool.false_eq_true] at h
        obtain ⟨hin, hcn, hall⟩ := ih _ _ _ _ h
        refine ⟨by omega, hcn, ?_⟩
        intro j hij hjn
        rcases Nat.eq_or_lt_of_le hij with rfl | hlt
        · simp [hop]
        · exact hall j hlt hjn

/-- Shape of a run that ends in success: the last invocation succeeded
and every earlier invocation of the run had failed. -/
theorem retryRun_success_spec (op : Nat → Option String) (cancel : Nat → Bool) :
    ∀ (fuel i w n w' : Nat),
      retryRun op cancel fuel i w = some (none, n, w') →
      i < n ∧ op (n - 1) = none ∧ ∀ j, i ≤ j → j < n - 1 → op j ≠ none := by
  intro fuel
  induction fuel with
  | zero => intro i w n w' h; simp [retryRun] at h
  | succ m ih =>
    intro i w n w' h
    unfold retryRun at h
    cases hop : op i with
    | none =>
      rw [hop] at h
      simp only [Option.some.injEq, Prod.mk.injEq] at h
      obtain ⟨-, hn, -⟩ := h
      subst hn
      exact ⟨Nat.lt_succ_self i, by simpa using hop, fun j hij hjn => by omega⟩
    | some msg =>
      rw [hop] at h
      by_cases hc : cancel i
      · simp [hc] at h
      · simp only [hc, if_false, Bool.false_eq_true] at h
        obtain ⟨hin, hsn, hall⟩ := ih _ _ _ _ h
        refine ⟨by omega, hsn, ?_⟩
        intro j hij hjn
        rcases Nat.eq_or_lt_of_le hij with rfl | hlt
        · simp [hop]
        · exact hall j hlt hjn

/-- When the signal never fires and the operation first succeeds at
invocation index k, the run returns success after exactly k + 1
invocations and completed waits summing the first k schedule delays. -/
theorem retryRun_schedule (op : Nat → Option String) (cancel : Nat → Bool)
    (hcancel : ∀ j, cancel j = false) :
    ∀ (k i w fuel : Nat), (∀ j, j < k → op (i + j) ≠ none) → op (i + k) = none →
      k < fuel →
      retryRun op cancel fuel i w =
        some (none, i + k + 1, w + ∑ j ∈ Finset.range k, delayFor (i + j)) := by
  intro k
  induction k with
  | zero =>
    intro i w fuel hfail hsucc hfuel
    cases fuel with
    | zero => omega
    | succ m =>
      unfold retryRun
      rw [show i + 0 = i from rfl] at hsucc
      rw [hsucc]
      simp
  | succ k ih =>
    intro i w fuel hfail hsucc hfuel
    cases fuel with
    | zero => omega
    | succ m =>
      unfold retryRun
      have h0 : op i ≠ none := by
        have := hfail 0 (by omega)
        simpa using this
      cases hop : op i with
      | none => exact absurd hop h0
      | some msg =>
        rw [hcancel i]
        simp only [Bool.false_eq_true, if_false]
        have hfail' : ∀ j, j < k → op (i + 1 + j) ≠ none := by
          intro j hj
          have := hfail (j + 1) (by omega)
          rwa [show i + (j + 1) = i + 1 + j from by omega] at this
        have hsucc' : op (i + 1 + k) = none := by
          rwa [show i + (k + 1) = i + 1 + k from by omega] at hsucc
        rw [ih (i + 1) (w + delayFor i) m hfail' hsucc' (by omega)]
        have hsum : w + delayFor i + ∑ j ∈ Finset.range k, delayFor (i + 1 + j)
            = w + ∑ j ∈ Finset.range (k + 1), delayFor (i + j) := by
          rw [Finset.sum_range_succ']
          have hshift : ∀ j, i + 1 + j = i + (j + 1) := fun j => by omega
          simp only [hshift, Nat.add_zero]
          omega
        rw [show i + 1 + k + 1 = i + (k + 1) + 1 from by omega, hsum]

/-! ## Claim theorems -/

/-- C2: for every operation and every cancellation signal, a terminated
run of retryWithBackoff returns only success (an invocation succeeded) or
cancellation (the signal fired during the wait after the last, failed,
invocation); it never returns an error reported by the operation, and after a
cancellation during a wait no further invocation happened: the
invocation count n counts exactly the (all failed) invocations before
the wait in which the signal fired. -/
theorem claim_C2_retry_outcomes (op : Nat → Option String) (cancel : Nat → Bool)
    (fuel n w : Nat) (res : Option RetryErr)
    (h : retryWithBackoff op cancel fuel = some (res, n, w)) :
    (∀ e, res ≠ some (RetryErr.opErr e)) ∧
    (res = none → 0 < n ∧ op (n - 1) = none) ∧
    (res = some RetryErr.ctxCanceled →
      0 < n ∧ cancel (n - 1) = true ∧ ∀ j, j < n → op j ≠ none) := by
  refine ⟨?_, ?_, ?_⟩
  · intro e he
    subst he
    exact retryRun_no_opErr op cancel fuel 0 0 n w e h
  · intro hres
    subst hres
    obtain ⟨h1, h2, -⟩ := retryRun_success_spec op cancel fuel 0 0 n w h
    exact ⟨h1, h2⟩
  · intro hres
    subst hres
    obtain ⟨h1, h2, h3⟩ := retryRun_cancel_spec op cancel fuel 0 0 n w h
    exact ⟨h1, h2, fun j hj => h3 j (Nat.zero_le j) hj⟩

/-- C2 witness: an always-failing operation with the signal firing in
the very first wait is cancelled after exactly one invocation. -/
theorem claim_C2_retry_outcomes_witness :
    0 < 1 ∧ (fun _ : Nat => true) (1 - 1) = true ∧
      ∀ j, j < 1 → (fun _ : Nat => some "boom") j ≠ none :=
  (claim_C2_retry_outcomes (fun _ => some "boom") (fun _ => true) 5 1 0
      (some RetryErr.ctxCanceled) (by decide)).2.2 rfl

/-- C3: the executor invokes the operation immediately; the waits before
successive retries are 1, 3, 5, 10, 15, 30, 45, 60 seconds in order and
then 60 seconds indefinitely; an operation whose first success is
invocation index k (with no cancellation) terminates after exactly k + 1
invocations with cumulative waits summing the first k delays; in
particular failing on invocations 1 to 3 and succeeding on invocation 4
gives 4 invocations and 1 + 3 + 5 = 9 seconds of waits. -/
theorem claim_C3_retry_schedule :
    (delayFor 0 = 1 ∧ delayFor 1 = 3 ∧ delayFor 2 = 5 ∧ delayFor 3 = 10 ∧
      delayFor 4 = 15 ∧ delayFor 5 = 30 ∧ delayFor 6 = 45 ∧ delayFor 7 = 60 ∧
      ∀ i, 8 ≤ i → delayFor i = 60) ∧
    (∀ (op : Nat → Option String) (cancel : Nat → Bool) (k fuel : Nat),
      (∀ j, cancel j = false) → (∀ j, j < k → op j ≠ none) → op k = none →
      k < fuel →
      retryWithBackoff op cancel fuel =
        some (none, k + 1, ∑ j ∈ Finset.range k, delayFor j)) ∧
    retryWithBackoff (fun i => if 3 ≤ i then none else some "error") (fun _ => false) 10
      = some (none, 4, 9) := by
  refine ⟨⟨rfl, rfl, rfl, rfl, rfl, rfl, rfl, rfl, ?_⟩, ?_, by decide⟩
  · intro i hi
    unfold delayFor
    exact List.getD_eq_default _ _ (by simpa [retryDelays] using hi)
  · intro op cancel k fuel hcancel hfail hsucc hfuel
    have := retryRun_schedule op cancel hcancel k 0 0 fuel
      (by simpa using hfail) (by simpa using hsucc) hfuel
    simpa [retryWithBackoff] using this

/-- C3 witness: the schedule theorem applied to the fail-three-times
operation. -/
theorem claim_C3_retry_schedule_witness :
    retryWithBackoff (fun i => if 3 ≤ i then none else some "error") (fun _ => false) 12
      = some (none, 4, ∑ j ∈ Finset.range 3, delayFor j) :=
  claim_C3_retry_schedule.2.1 (fun i => if 3 ≤ i then none else some "error")
    (fun _ => false) 3 12 (fun _ => rfl) (by decide) (by decide) (by decide)

/-- C8: viewerTrend returns the no-classification answer (the empty
string, which the callers render as no trend text) for histories of
fewer than 4 points; otherwise, splitting the history so that the early
half is the first floor(n / 2) points, with e and l the exact arithmetic
means of the two halves and r = (l - e) / e the relative change, it
returns the Growing label when r exceeds 7 / 100, the Dropping label
when r is below -(7 / 100), and the Steady label in between.  The
hypothesis that e is non-zero excludes the division-by-zero input on
which the float64 source computes an infinity and exact arithmetic
cannot model it. -/
theorem claim_C8_viewer_trend :
    (∀ (history : List ViewerDataPoint) (loc : Localization),
      history.length < 4 → viewerTrend history loc = "") ∧
    (∀ (history : List ViewerDataPoint) (loc : Localization) (e l r : ℚ),
      4 ≤ history.length →
      e = ((history.take (history.length / 2)).map (fun p => (p.Count : ℚ))).sum
            / ((history.length / 2 : ℕ) : ℚ) →
      l = ((history.drop (history.length / 2)).map (fun p => (p.Count : ℚ))).sum
            / ((history.length - history.length / 2 : ℕ) : ℚ) →
      e ≠ 0 →
      r = (l - e) / e →
      (7 / 100 < r → viewerTrend history loc = loc.Growing) ∧
      (r < -(7 / 100) → viewerTrend history loc = loc.Dropping) ∧
      (-(7 / 100) ≤ r → r ≤ 7 / 100 → viewerTrend history loc = loc.Steady)) := by
  constructor
  · intro history loc hlen
    unfold viewerTrend
    rw [if_pos hlen]
  · intro history loc e l r hlen he hl hne hr
    simp only [viewerTrend, if_neg (show ¬ history.length < 4 by omega)]
    rw [← he, ← hl, ← hr]
    refine ⟨?_, ?_, ?_⟩
    · intro h; rw [if_pos h]
    · intro h
      rw [if_neg (show ¬ 7 / 100 < r by linarith), if_pos h]
    · intro h1 h2
      rw [if_neg (not_lt.mpr h2), if_neg (not_lt.mpr h1)]

/-- C8 witness: the example given in the specification, a history of four 10s
followed by four 100s, classifies as Growing (e = 10, l = 100, r = 9). -/
theorem claim_C8_viewer_trend_witness :
    viewerTrend
      [⟨0, 10⟩, ⟨1, 10⟩, ⟨2, 10⟩, ⟨3, 10⟩, ⟨4, 100⟩, ⟨5, 100⟩, ⟨6, 100⟩, ⟨7, 100⟩]
      (getLocalization "en") = (getLocalization "en").Growing :=
  (claim_C8_viewer_trend.2
      [⟨0, 10⟩, ⟨1, 10⟩, ⟨2, 10⟩, ⟨3, 10⟩, ⟨4, 100⟩, ⟨5, 100⟩, ⟨6, 100⟩, ⟨7, 100⟩]
      (getLocalization "en") 10 100 9 (by decide) (by norm_num [List.take])
      (by norm_num [List.drop]) (by norm_num) (by norm_num)).1 (by norm_num)

/-- C9: formatViewers renders a count below 1000 as the plain integer;
in [1000, 10000) as a one-decimal K value; in [10000, 1000000) as a
whole-number K value; in [1000000, 10000000) as a one-decimal M value;
at and above 10000000 as a whole-number M value; and produces the
five example strings of the specification. -/
theorem claim_C9_format_viewers :
    (∀ n : Int, 0 ≤ n → n < 1000 → formatViewers n = toString n) ∧
    (∀ n : Int, 1000 ≤ n → n < 10000 →
      ∃ a b : Nat, b < 10 ∧ formatViewers n = toString a ++ "." ++ toString b ++ "K") ∧
    (∀ n : Int, 10000 ≤ n → n < 1000000 →
      ∃ a : Nat, formatViewers n = toString a ++ "K") ∧
    (∀ n : Int, 1000000 ≤ n → n < 10000000 →
      ∃ a b : Nat, b < 10 ∧ formatViewers n = toString a ++ "." ++ toString b ++ "M") ∧
    (∀ n : Int, 10000000 ≤ n → ∃ a : Nat, formatViewers n = toString a ++ "M") ∧
    formatViewers 950 = "950" ∧ formatViewers 1500 = "1.5K" ∧
    formatViewers 25000 = "25K" ∧ formatViewers 2500000 = "2.5M" ∧
    formatViewers 12000000 = "12M" := by
  refine ⟨?_, ?_, ?_, ?_, ?_, by decide, by decide, by decide, by decide, by decide⟩
  · intro n h0 h1
    unfold formatViewers
    rw [if_neg (by omega), if_neg (by omega), if_neg (by omega)]
  · intro n h0 h1
    refine ⟨roundHalfEven (10 * n.toNat) 1000 / 10, roundHalfEven (10 * n.toNat) 1000 % 10,
      Nat.mod_lt _ (by norm_num), ?_⟩
    unfold formatViewers
    rw [if_neg (by omega), if_neg (by omega), if_pos (by omega)]
    rfl
  · intro n h0 h1
    refine ⟨roundHalfEven n.toNat 1000, ?_⟩
    unfold formatViewers
    rw [if_neg (by omega), if_pos (by omega)]
    rfl
  · intro n h0 h1
    refine ⟨roundHalfEven (10 * n.toNat) 1000000 / 10, roundHalfEven (10 * n.toNat) 1000000 % 10,
      Nat.mod_lt _ (by norm_num), ?_⟩
    unfold formatViewers
    rw [if_pos (by omega), if_neg (by omega)]
    rfl
  · intro n h0
    refine ⟨roundHalfEven n.toNat 1000000, ?_⟩
    unfold formatViewers
    rw [if_pos (by omega), if_pos (by omega)]
    rfl

/-- C9 witness: the one-decimal K range applied at 1500. -/
theorem claim_C9_format_viewers_witness :
    ∃ a b : Nat, b < 10 ∧ formatViewers 1500 = toString a ++ "." ++ toString b ++ "K" :=
  claim_C9_format_viewers.2.1 1500 (by decide) (by decide)

/-- C10: when the current viewer count of the snapshot is zero the whole
viewer fragment is omitted from the stats line of the update message, whatever
the history or average (the message does not depend on them at all and
equals the uptime-only rendering); and when the count is positive the
average appears in the fragment exactly when it is positive and differs
from the current count. -/
theorem claim_C10_zero_viewer_fragment :
    (∀ (info : StreamInfo) (loc : Localization) (avg avg' : Int)
        (history history' : List ViewerDataPoint),
      info.Viewers = 0 →
      formatUpdateMessage info avg history loc = formatUpdateMessage info avg' history' loc) ∧
    (∀ (info : StreamInfo) (loc : Localization) (avg : Int)
        (history : List ViewerDataPoint),
      info.Viewers = 0 →
      formatUpdateMessage info avg history loc =
        (let line := "<b>" ++ escapeHTML info.Channel ++ "</b> • " ++ loc.IsLive
         let line := if info.Game ≠ "" then line ++ " • " ++ escapeHTML info.Game else line
         let b := line ++ "\n\n"
         let b := if info.Title ≠ "" then b ++ "<i>" ++ escapeHTML info.Title ++ "</i>\n\n" else b
         b ++ String.intercalate " · " (if info.Uptime ≠ "" then [info.Uptime] else []))) ∧
    (∀ (info : StreamInfo) (loc : Localization) (avg : Int)
        (history : List ViewerDataPoint),
      ¬(0 < avg ∧ avg ≠ info.Viewers) →
      viewerStat info avg history loc =
        (let v := formatViewers info.Viewers ++ " " ++ loc.Viewers
         let trend := viewerTrend history loc
         if trend ≠ "" then v ++ " · " ++ trend else v)) ∧
    (∀ (info : StreamInfo) (loc : Localization) (avg : Int)
        (history : List ViewerDataPoint),
      0 < avg ∧ avg ≠ info.Viewers →
      viewerStat info avg history loc =
        (let v := formatViewers info.Viewers ++ " " ++ loc.Viewers ++ ", " ++
            formatViewers avg ++ " " ++ loc.Avg
         let trend := viewerTrend history loc
         if trend ≠ "" then v ++ " · " ++ trend else v)) := by
  refine ⟨?_, ?_, ?_, ?_⟩
  · intro info loc avg avg' history history' h
    simp [formatUpdateMessage, h]
  · intro info loc avg history h
    simp [formatUpdateMessage, h]
  · intro info loc avg history h
    simp only [viewerStat]
    rw [if_neg h]
  · intro info loc avg history h
    simp only [viewerStat]
    rw [if_pos h]

/-- C10 witness: with a zero current count the update message ignores a
non-trivial history and positive average entirely. -/
theorem claim_C10_zero_viewer_fragment_witness :
    formatUpdateMessage
        { Channel := "c", URL := "", Title := "t", Game := "g", Viewers := 0,
          Uptime := "1 h 0 m", Tags := [] } 5 [⟨0, 3⟩, ⟨1, 4⟩] (getLocalization "en")
      = formatUpdateMessage
        { Channel := "c", URL := "", Title := "t", Game := "g", Viewers := 0,
          Uptime := "1 h 0 m", Tags := [] } 0 [] (getLocalization "en") :=
  claim_C10_zero_viewer_fragment.1
    { Channel := "c", URL := "", Title := "t", Game := "g", Viewers := 0,
      Uptime := "1 h 0 m", Tags := [] } (getLocalization "en") 5 0 [⟨0, 3⟩, ⟨1, 4⟩] [] rfl

/-- C4: in a poll cycle with a live snapshot and no session, where the
broadcaster lookup succeeds and a successful create-delivery returns a
non-zero handle (the collaborator contract), a successful delivery
creates a session with exactly one history entry at the viewer count of
the snapshot, update counter 0 and the game, title and tags of the
snapshot;
a cancelled delivery creates no session and the cycle performs no other
transition. -/
theorem claim_C4_offline_to_live (cfg : Config) (st : MonitorState) (env : CycleEnv)
    (info : StreamInfo) (bid : String)
    (hs : st.session = none)
    (hsent : env.sentinel = false)
    (hsnap : env.snap = SnapResult.ok (some info))
    (hbid : env.broadcaster = some bid)
    (hhandle : ∀ id, env.startSend = DeliveryResult.success id → id ≠ 0) :
    (∀ id, env.startSend = DeliveryResult.success id →
      (pollCycle cfg st env).1.session = some
        { MessageID := id, StartTime := env.now, Game := info.Game,
          Title := info.Title, Tags := info.Tags, BroadcasterID := bid,
          ViewerHistory := [{ Timestamp := env.now, Count := info.Viewers }],
          UpdateCounter := 0 }) ∧
    (env.startSend = DeliveryResult.cancelled →
      (pollCycle cfg st env).1.session = none ∧
      (pollCycle cfg st env).2.refreshed = false ∧
      (pollCycle cfg st env).2.endMessage = none) := by
  constructor
  · intro id hsend
    have hid : id ≠ 0 := hhandle id hsend
    simp [pollCycle, hsent, hsnap, hbid, hs, hsend, hid]
  · intro hsend
    simp [pollCycle, hsent, hsnap, hbid, hs, hsend]

/-- C4 witness: a concrete cycle creating a session from a live
snapshot (snapshot fields: channel c, url u, title t, game g, 42
viewers; delivery returns handle 9 at clock 7). -/
theorem claim_C4_offline_to_live_witness :
    (pollCycle ⟨"c", 30, 5, "en"⟩ ⟨none, false⟩
        ⟨7, false, SnapResult.ok (some ⟨"c", "u", "t", "g", 42, "", []⟩), some "b",
          DeliveryResult.success 9, DeliveryResult.cancelled, DeliveryResult.cancelled,
          []⟩).1.session
      = some ⟨9, 7, "g", "t", [], "b", [⟨7, 42⟩], 0⟩ :=
  (claim_C4_offline_to_live ⟨"c", 30, 5, "en"⟩ ⟨none, false⟩
      ⟨7, false, SnapResult.ok (some ⟨"c", "u", "t", "g", 42, "", []⟩), some "b",
        DeliveryResult.success 9, DeliveryResult.cancelled, DeliveryResult.cancelled, []⟩
      ⟨"c", "u", "t", "g", 42, "", []⟩ "b" rfl rfl rfl rfl
      (by intro id h; cases h; decide)).1 9 rfl

/-- C5: in a poll cycle whose snapshot acquisition reports the channel
offline while a session exists, the cycle ends with no session and with
the end message composed and handed to delivery, whatever the outcome of
the finalize delivery is. -/
theorem claim_C5_live_to_offline (cfg : Config) (st : MonitorState) (env : CycleEnv)
    (s : StreamSession)
    (hs : st.session = some s)
    (hsent : env.sentinel = false)
    (hsnap : env.snap = SnapResult.ok none) :
    ∀ d : DeliveryResult,
      (pollCycle cfg st { env with endEdit := d }).1.session = none ∧
      (pollCycle cfg st { env with endEdit := d }).2.endMessage ≠ none := by
  intro d
  constructor
  · simp [pollCycle, hsent, hsnap, hs]
  · simp [pollCycle, hsent, hsnap, hs]

/-- C5 witness: a concrete offline cycle discarding the session under a
cancelled finalize delivery. -/
theorem claim_C5_live_to_offline_witness :
    (pollCycle ⟨"c", 30, 5, "en"⟩
        ⟨some ⟨9, 0, "g", "t", [], "b", [⟨0, 5⟩], 2⟩, true⟩
        ⟨60, false, SnapResult.ok none, none, DeliveryResult.cancelled,
          DeliveryResult.cancelled, DeliveryResult.cancelled, []⟩).1.session = none :=
  (claim_C5_live_to_offline ⟨"c", 30, 5, "en"⟩
      ⟨some ⟨9, 0, "g", "t", [], "b", [⟨0, 5⟩], 2⟩, true⟩
      ⟨60, false, SnapResult.ok none, none, DeliveryResult.cancelled,
        DeliveryResult.cancelled, DeliveryResult.cancelled, []⟩
      ⟨9, 0, "g", "t", [], "b", [⟨0, 5⟩], 2⟩ rfl rfl rfl
      DeliveryResult.cancelled).1

/-- C7: in a live poll with an existing session, the cycle refreshes
exactly when the incremented update counter has reached checksPerUpdate
or the game of the snapshot differs from the non-empty cached game; when it
does not refresh the only session change is the appended data point and
the incremented counter (and no update message is composed), and when it
refreshes the update message over the appended history and fetched clips
is composed and the counter is reset with the caches refreshed. -/
theorem claim_C7_refresh_condition (cfg : Config) (st : MonitorState) (env : CycleEnv)
    (info : StreamInfo) (s : StreamSession)
    (hs : st.session = some s)
    (hsent : env.sentinel = false)
    (hsnap : env.snap = SnapResult.ok (some info)) :
    ((pollCycle cfg st env).2.refreshed = true ↔
      checksPerUpdate cfg ≤ s.UpdateCounter + 1 ∨ (info.Game ≠ s.Game ∧ s.Game ≠ "")) ∧
    (¬(checksPerUpdate cfg ≤ s.UpdateCounter + 1 ∨ (info.Game ≠ s.Game ∧ s.Game ≠ "")) →
      (pollCycle cfg st env).1.session = some
        { s with
            ViewerHistory := s.ViewerHistory ++ [{ Timestamp := env.now, Count := info.Viewers }],
            UpdateCounter := s.UpdateCounter + 1 } ∧
      (pollCycle cfg st env).2.updateMessage = none) ∧
    ((checksPerUpdate cfg ≤ s.UpdateCounter + 1 ∨ (info.Game ≠ s.Game ∧ s.Game ≠ "")) →
      (pollCycle cfg st env).1.session = some
        { s with
            ViewerHistory := s.ViewerHistory ++ [{ Timestamp := env.now, Count := info.Viewers }],
            UpdateCounter := 0, Game := info.Game, Title := info.Title, Tags := info.Tags } ∧
      (pollCycle cfg st env).2.updateMessage =
        some (formatUpdateMessageWithClips info
          (calculateAverage (s.ViewerHistory ++ [{ Timestamp := env.now, Count := info.Viewers }]))
          (s.ViewerHistory ++ [{ Timestamp := env.now, Count := info.Viewers }])
          env.clips (getLocalization cfg.Language))) := by
  by_cases hcond : checksPerUpdate cfg ≤ s.UpdateCounter + 1 ∨ (info.Game ≠ s.Game ∧ s.Game ≠ "")
  · refine ⟨?_, fun hn => absurd hcond hn, fun _ => ?_⟩
    · simp only [pollCycle, hsent, hsnap, hs]
      simp [hcond]
    · constructor
      · simp only [pollCycle, hsent, hsnap, hs]
        simp [hcond]
      · simp only [pollCycle, hsent, hsnap, hs]
        simp [hcond]
  · refine ⟨?_, fun _ => ?_, fun hc => absurd hc hcond⟩
    · simp only [pollCycle, hsent, hsnap, hs]
      simp [hcond]
    · constructor
      · simp only [pollCycle, hsent, hsnap, hs]
        simp [hcond]
      · simp only [pollCycle, hsent, hsnap, hs]
        simp [hcond]

/-- C7 witness: a session one tick below the threshold with the same
game appends and increments without refreshing. -/
theorem claim_C7_refresh_condition_witness :
    (pollCycle ⟨"c", 30, 5, "en"⟩
        ⟨some ⟨9, 0, "g", "t", [], "b", [⟨0, 5⟩], 2⟩, true⟩
        ⟨30, false, SnapResult.ok (some ⟨"c", "u", "t", "g", 6, "", []⟩), none,
          DeliveryResult.cancelled, DeliveryResult.cancelled, DeliveryResult.cancelled,
          []⟩).1.session
      = some ⟨9, 0, "g", "t", [], "b", [⟨0, 5⟩, ⟨30, 6⟩], 3⟩ :=
  ((claim_C7_refresh_condition ⟨"c", 30, 5, "en"⟩
      ⟨some ⟨9, 0, "g", "t", [], "b", [⟨0, 5⟩], 2⟩, true⟩
      ⟨30, false, SnapResult.ok (some ⟨"c", "u", "t", "g", 6, "", []⟩), none,
        DeliveryResult.cancelled, DeliveryResult.cancelled, DeliveryResult.cancelled, []⟩
      ⟨"c", "u", "t", "g", 6, "", []⟩ ⟨9, 0, "g", "t", [], "b", [⟨0, 5⟩], 2⟩
      rfl rfl rfl).2.1 (by decide)).1

/-- One cycle preserves non-negativity of the update counter of the
session (the counter is only ever set to 0, incremented, or kept). -/
theorem pollCycle_counter_nonneg (cfg : Config) (st : MonitorState) (env : CycleEnv)
    (h : ∀ s, st.session = some s → 0 ≤ s.UpdateCounter) :
    ∀ s', (pollCycle cfg st env).1.session = some s' → 0 ≤ s'.UpdateCounter := by
  intro s' hs'
  by_cases henv : env.sentinel = true
  · cases hsess : st.session with
    | none => simp [pollCycle, henv, hsess] at hs'
    | some s =>
      simp [pollCycle, henv, hsess] at hs'
      exact hs' ▸ h s hsess
  · cases hsnap : env.snap with
    | fail =>
      simp [pollCycle, henv, hsnap] at hs'
      exact h s' hs'
    | ok info? =>
      cases info? with
      | none =>
        cases hsess : st.session with
        | none => simp [pollCycle, henv, hsnap, hsess] at hs'
        | some s => simp [pollCycle, henv, hsnap, hsess] at hs'
      | some info =>
        cases hsess : st.session with
        | none =>
          cases hbid : env.broadcaster with
          | none => simp [pollCycle, henv, hsnap, hsess, hbid] at hs'
          | some bid =>
            cases hsend : env.startSend with
            | success id =>
              by_cases hid : id = 0
              · simp [pollCycle, henv, hsnap, hsess, hbid, hsend, hid] at hs'
              · simp [pollCycle, henv, hsnap, hsess, hbid, hsend, hid] at hs'
                rw [← hs']
            | cancelled =>
              simp [pollCycle, henv, hsnap, hsess, hbid, hsend] at hs'
        | some s =>
          by_cases hcond : checksPerUpdate cfg ≤ s.UpdateCounter + 1 ∨
              (info.Game ≠ s.Game ∧ s.Game ≠ "")
          · simp [pollCycle, henv, hsnap, hsess, hcond] at hs'
            rw [← hs']
          · simp [pollCycle, henv, hsnap, hsess, hcond] at hs'
            have := h s hsess
            rw [← hs']
            simp
            omega

/-- A cycle that refreshed leaves the update counter of the session at 0. -/
theorem pollCycle_refresh_resets (cfg : Config) (st : MonitorState) (env : CycleEnv)
    (hr : (pollCycle cfg st env).2.refreshed = true) :
    ∀ s', (pollCycle cfg st env).1.session = some s' → s'.UpdateCounter = 0 := by
  intro s' hs'
  by_cases henv : env.sentinel = true
  · cases hsess : st.session with
    | none => simp [pollCycle, henv, hsess] at hr
    | some s => simp [pollCycle, henv, hsess] at hr
  · cases hsnap : env.snap with
    | fail => simp [pollCycle, henv, hsnap] at hr
    | ok info? =>
      cases info? with
      | none =>
        cases hsess : st.session with
        | none => simp [pollCycle, henv, hsnap, hsess] at hr
        | some s => simp [pollCycle, henv, hsnap, hsess] at hr
      | some info =>
        cases hsess : st.session with
        | none =>
          cases hbid : env.broadcaster with
          | none => simp [pollCycle, henv, hsnap, hsess, hbid] at hr
          | some bid =>
            cases hsend : env.startSend with
            | success id =>
              by_cases hid : id = 0
              · simp [pollCycle, henv, hsnap, hsess, hbid, hsend, hid] at hr
              · simp [pollCycle, henv, hsnap, hsess, hbid, hsend, hid] at hr
            | cancelled =>
              simp [pollCycle, henv, hsnap, hsess, hbid, hsend] at hr
        | some s =>
          by_cases hcond : checksPerUpdate cfg ≤ s.UpdateCounter + 1 ∨
              (info.Game ≠ s.Game ∧ s.Game ≠ "")
          · simp [pollCycle, henv, hsnap, hsess, hcond] at hs'
            rw [← hs']
          · simp [pollCycle, henv, hsnap, hsess, hcond] at hr

/-- C6 (amended): over every reachable state the update counter is never
negative, and every refresh (whatever the delivery outcome, which the
code discards) resets it to 0; when checksPerUpdate is positive the
counter therefore lies in the interval from 0 up to checksPerUpdate
right after a refresh.  (The unamended claim asserts that interval
membership for every positive pair of intervals, but checksPerUpdate is
the truncated quotient and is 0 when the check interval exceeds 60 times
the update interval, making the interval empty.) -/
theorem claim_C6_counter_amended (cfg : Config)
    (hc : 0 < cfg.CheckInterval) (hu : 0 < cfg.UpdateInterval) :
    (∀ st, Reachable cfg st → ∀ s, st.session = some s → 0 ≤ s.UpdateCounter) ∧
    (∀ (st : MonitorState) (env : CycleEnv) (s : StreamSession),
      (pollCycle cfg st env).2.refreshed = true →
      (pollCycle cfg st env).1.session = some s → s.UpdateCounter = 0) ∧
    (0 < checksPerUpdate cfg →
      ∀ (st : MonitorState) (env : CycleEnv) (s : StreamSession),
        (pollCycle cfg st env).2.refreshed = true →
        (pollCycle cfg st env).1.session = some s →
        0 ≤ s.UpdateCounter ∧ s.UpdateCounter < checksPerUpdate cfg) := by
  refine ⟨?_, ?_, ?_⟩
  · intro st hreach
    induction hreach with
    | init => intro s hs; simp at hs
    | step st1 env hprev ih => exact pollCycle_counter_nonneg cfg st1 env ih
  · intro st env s hr hs
    exact pollCycle_refresh_resets cfg st env hr s hs
  · intro hcpu st env s hr hs
    have h0 := pollCycle_refresh_resets cfg st env hr s hs
    omega

/-- C6 witness: a refresh cycle at the threshold resets the counter to
0, strictly below checksPerUpdate = 10 for a 30-second check interval
and 5-minute update interval. -/
theorem claim_C6_counter_amended_witness :
    (0 : Int) ≤ StreamSession.UpdateCounter ⟨9, 0, "g", "t", [], "b", [⟨0, 5⟩, ⟨30, 6⟩], 0⟩ ∧
    StreamSession.UpdateCounter ⟨9, 0, "g", "t", [], "b", [⟨0, 5⟩, ⟨30, 6⟩], 0⟩
      < checksPerUpdate ⟨"c", 30, 5, "en"⟩ :=
  (claim_C6_counter_amended ⟨"c", 30, 5, "en"⟩ (by decide) (by decide)).2.2 (by decide)
    ⟨some ⟨9, 0, "g", "t", [], "b", [⟨0, 5⟩], 9⟩, true⟩
    ⟨30, false, SnapResult.ok (some ⟨"c", "u", "t", "g", 6, "", []⟩), none,
      DeliveryResult.cancelled, DeliveryResult.cancelled, DeliveryResult.cancelled, []⟩
    ⟨9, 0, "g", "t", [], "b", [⟨0, 5⟩, ⟨30, 6⟩], 0⟩ (by decide) (by decide)

/-- C6 counterexample: with check interval 120 seconds and update
interval 1 minute (both positive), checksPerUpdate is the truncated
quotient 60 / 120 = 0; from a reachable live state every poll refreshes,
and the counter 0 right after the refresh does not lie in the (empty)
interval from 0 up to checksPerUpdate. -/
theorem claim_C6_counter_counterexample :
    (0 : Int) < (⟨"c", 120, 1, "en"⟩ : Config).CheckInterval ∧
    (0 : Int) < (⟨"c", 120, 1, "en"⟩ : Config).UpdateInterval ∧
    Reachable ⟨"c", 120, 1, "en"⟩
      (pollCycle ⟨"c", 120, 1, "en"⟩ ⟨none, false⟩
        ⟨0, false, SnapResult.ok (some ⟨"c", "u", "t", "g", 5, "", []⟩), some "b",
          DeliveryResult.success 9, DeliveryResult.cancelled,
          DeliveryResult.cancelled, []⟩).1 ∧
    (pollCycle ⟨"c", 120, 1, "en"⟩
        (pollCycle ⟨"c", 120, 1, "en"⟩ ⟨none, false⟩
          ⟨0, false, SnapResult.ok (some ⟨"c", "u", "t", "g", 5, "", []⟩), some "b",
            DeliveryResult.success 9, DeliveryResult.cancelled,
            DeliveryResult.cancelled, []⟩).1
        ⟨120, false, SnapResult.ok (some ⟨"c", "u", "t", "g", 5, "", []⟩), none,
          DeliveryResult.cancelled, DeliveryResult.cancelled,
          DeliveryResult.cancelled, []⟩).2.refreshed = true ∧
    ∃ s, (pollCycle ⟨"c", 120, 1, "en"⟩
        (pollCycle ⟨"c", 120, 1, "en"⟩ ⟨none, false⟩
          ⟨0, false, SnapResult.ok (some ⟨"c", "u", "t", "g", 5, "", []⟩), some "b",
            DeliveryResult.success 9, DeliveryResult.cancelled,
            DeliveryResult.cancelled, []⟩).1
        ⟨120, false, SnapResult.ok (some ⟨"c", "u", "t", "g", 5, "", []⟩), none,
          DeliveryResult.cancelled, DeliveryResult.cancelled,
          DeliveryResult.cancelled, []⟩).1.session = some s ∧
      ¬ (0 ≤ s.UpdateCounter ∧ s.UpdateCounter < checksPerUpdate ⟨"c", 120, 1, "en"⟩) := by
  refine ⟨by decide, by decide, ?_, by decide,
    ⟨9, 0, "g", "t", [], "b", [⟨0, 5⟩, ⟨120, 5⟩], 0⟩, by decide, by decide⟩
  exact Reachable.step ⟨none, false⟩ _ Reachable.init

/-- C1: a poll cycle in which the sentinel file is present while a
session exists does NOT take the Live to Offline transition: the code
sets a non-nil simulated-end error together with the nil snapshot, so
the cycle runs into the failed-status-check path, which deletes the
sentinel, logs the error and ends the cycle early; no end message is
composed or delivered and the session survives unchanged, contrary to
the claim. -/
theorem claim_C1_sentinel_skips_end :
    (pollCycle ⟨"c", 30, 5, "en"⟩ ⟨some ⟨9, 0, "g", "t", [], "b", [⟨0, 5⟩], 1⟩, true⟩
        ⟨60, true, SnapResult.ok none, none, DeliveryResult.cancelled,
          DeliveryResult.cancelled, DeliveryResult.cancelled, []⟩).1
      = ⟨some ⟨9, 0, "g", "t", [], "b", [⟨0, 5⟩], 1⟩, true⟩ ∧
    (pollCycle ⟨"c", 30, 5, "en"⟩ ⟨some ⟨9, 0, "g", "t", [], "b", [⟨0, 5⟩], 1⟩, true⟩
        ⟨60, true, SnapResult.ok none, none, DeliveryResult.cancelled,
          DeliveryResult.cancelled, DeliveryResult.cancelled, []⟩).2.endMessage = none ∧
    (pollCycle ⟨"c", 30, 5, "en"⟩ ⟨some ⟨9, 0, "g", "t", [], "b", [⟨0, 5⟩], 1⟩, true⟩
        ⟨60, true, SnapResult.ok none, none, DeliveryResult.cancelled,
          DeliveryResult.cancelled, DeliveryResult.cancelled, []⟩).2.sentinelDeleted = true ∧
    (pollCycle ⟨"c", 30, 5, "en"⟩ ⟨some ⟨9, 0, "g", "t", [], "b", [⟨0, 5⟩], 1⟩, true⟩
        ⟨60, true, SnapResult.ok none, none, DeliveryResult.cancelled,
          DeliveryResult.cancelled, DeliveryResult.cancelled, []⟩).2.statusCheckFailed = true := by
  decide

end TwitchBot
